import Mathlib

/-!
Verification development for the HID Origo integration client.

The Python source under src/src/api is shallowly embedded here:
pure methods become Lean functions; methods that mutate an object
become functions from the old state to the new state; the ambient
clock (time.time()) and the network (requests) become explicit
parameters (`now : ℤ`, an `HttpResult` argument holding the remote
response or the transport failure); a raised exception becomes an
`Except` error value.  Timestamps, Python floats in the source, are
embedded as exact integer-valued instants: every expiry comparison the
source makes is between a float timestamp difference and the integer
`expires_in - buffer_seconds`, and the ordering facts proved here do
not depend on sub-second precision.  Python dictionaries whose keys
are known become structures with `Option` fields (a `none` field is an
absent key); the open-keyed dictionaries (`data` of a CloudEvent, the
mock pass/registration stores) become association lists.
-/

/-- OAuth2 token response (src/src/api/auth.py, class TokenResponse).
`obtained_at = 0` is the dataclass default and Python's falsy test
treats it as "never obtained". -/
structure TokenResponse where
  access_token : String
  token_type : String
  expires_in : Int
  id_token : Option String
  obtained_at : Int
deriving Repr, DecidableEq

/-- TokenResponse.is_expired: Python returns True when `obtained_at`
is falsy (the 0 default), else tests `now - obtained_at >= expires_in
- buffer_seconds`.  `now` replaces the ambient time.time(). -/
def TokenResponse.is_expired (t : TokenResponse) (now : Int) (buffer_seconds : Int) : Bool :=
  if t.obtained_at = 0 then true
  else decide (now - t.obtained_at ≥ t.expires_in - buffer_seconds)

/-- The transport-level failure a requests call can raise
(requests.exceptions.RequestException): HTTP status when the server
answered, plus the body/message. -/
structure TransportError where
  status : Option Nat
  body : String
deriving Repr, DecidableEq

/-- Outcome of one network exchange: either the decoded response
payload or the transport failure. -/
inductive HttpResult (α : Type) where
  | ok (data : α)
  | err (e : TransportError)
deriving Repr, DecidableEq

/-- The JSON body of a successful token exchange: `access_token` is
mandatory (`data["access_token"]`), the others are read with
`data.get` defaults. -/
structure AuthResponseData where
  access_token : String
  token_type : Option String
  expires_in : Option Int
  id_token : Option String
deriving Repr, DecidableEq

/-- Mutable state of an OrigoAuth instance: the cached `self._token`
(`cachedToken` embeds the `_token` attribute). -/
structure OrigoAuthState where
  cachedToken : Option TokenResponse
deriving Repr, DecidableEq

/-- The TokenResponse that OrigoAuth.authenticate constructs from a
successful response body at time `now` (the `time.time()` of the
assignment). -/
def mkTokenResponse (data : AuthResponseData) (now : Int) : TokenResponse :=
  { access_token := data.access_token
    token_type := data.token_type.getD "Bearer"
    expires_in := data.expires_in.getD 3600
    id_token := data.id_token
    obtained_at := now }

/-- OrigoAuth.authenticate (src/src/api/auth.py lines 103-130): one
POST to the token endpoint.  On success a brand-new TokenResponse is
built and installed in `self._token`; on RequestException the handler
prints and re-raises, so the exception propagates and the state is
untouched. -/
def OrigoAuth.authenticate (st : OrigoAuthState) (now : Int)
    (res : HttpResult AuthResponseData) :
    Except TransportError TokenResponse × OrigoAuthState :=
  match res with
  | .ok data =>
      let t := mkTokenResponse data now
      (.ok t, { cachedToken := some t })
  | .err e => (.error e, st)

/-- OrigoAuth.get_token (src/src/api/auth.py lines 132-136):
`if not self._token or self._token.is_expired(): self.authenticate()`
then `return self._token.access_token`.  The Bool in the result
records whether authenticate() was invoked. -/
def OrigoAuth.get_token (st : OrigoAuthState) (now : Int)
    (res : HttpResult AuthResponseData) :
    Except TransportError String × OrigoAuthState × Bool :=
  match st.cachedToken with
  | some t =>
      if t.is_expired now 60 then
        match OrigoAuth.authenticate st now res with
        | (.ok t2, st2) => (.ok t2.access_token, st2, true)
        | (.error e, st2) => (.error e, st2, true)
      else
        (.ok t.access_token, st, false)
  | none =>
      match OrigoAuth.authenticate st now res with
      | (.ok t2, st2) => (.ok t2.access_token, st2, true)
      | (.error e, st2) => (.error e, st2, true)

/-- C1: a token whose obtained_at is nonzero is usable (is_expired
false) iff now - obtained_at < expires_in - 60; and with expires_in =
3600 the boundary is at 3540s, so get_token() at 3550 elapsed seconds
invokes a fresh authenticate(). -/
theorem token_usable_iff_within_buffer
    (t : TokenResponse) (now : Int) (h : t.obtained_at ≠ 0) :
    (t.is_expired now 60 = false ↔
      now - t.obtained_at < t.expires_in - 60) ∧
    (∀ (a tt : String) (idt : Option String) (T : Int)
        (res : HttpResult AuthResponseData), T ≠ 0 →
      (OrigoAuth.get_token
        { cachedToken := some
            { access_token := a, token_type := tt, expires_in := 3600,
              id_token := idt, obtained_at := T } }
        (T + 3550) res).2.2 = true) := by
  constructor
  · unfold TokenResponse.is_expired
    rw [if_neg h]
    rw [decide_eq_false_iff_not, not_le]
  · intro a tt idt T res hT
    unfold OrigoAuth.get_token
    simp only
    have hexp : TokenResponse.is_expired
        { access_token := a, token_type := tt, expires_in := 3600,
          id_token := idt, obtained_at := T } (T + 3550) 60 = true := by
      unfold TokenResponse.is_expired
      rw [if_neg hT]
      rw [decide_eq_true_iff]
      show T + 3550 - T ≥ 3600 - 60
      omega
    rw [hexp]
    simp only [if_true]
    cases res with
    | ok d => rfl
    | err e => rfl

/-- Witness for C1 at a concrete token (obtained at 7, expires_in
3600, queried at 7 + 3550). -/
theorem token_usable_iff_within_buffer_witness :
    (TokenResponse.is_expired
      { access_token := "atk", token_type := "Bearer", expires_in := 3600,
        id_token := none, obtained_at := 7 } 100 60 = false ↔
      (100 : Int) - 7 < 3600 - 60) ∧
    (OrigoAuth.get_token
      { cachedToken := some
          { access_token := "atk", token_type := "Bearer", expires_in := 3600,
            id_token := none, obtained_at := 7 } }
      (7 + 3550) (.err { status := none, body := "down" })).2.2 = true := by
  constructor
  · exact (token_usable_iff_within_buffer
      { access_token := "atk", token_type := "Bearer", expires_in := 3600,
        id_token := none, obtained_at := 7 } 100 (by decide)).1
  · exact (token_usable_iff_within_buffer
      { access_token := "atk", token_type := "Bearer", expires_in := 3600,
        id_token := none, obtained_at := 7 } 100 (by decide)).2
      "atk" "Bearer" none 7 (.err { status := none, body := "down" })
      (by decide)

/-- Counterexample to C2: get_token() after a refresh does not
re-check validity.  With a fresh exchange answering expires_in = 60
at now = 100, get_token returns the new access token even though the
installed token is already expired (elapsed 0 >= 60 - 60) at the very
moment of return, so get_token does not always return the access token
of a currently valid (non-expired) token. -/
theorem get_token_can_return_expired_token :
    (OrigoAuth.get_token { cachedToken := none } 100
      (.ok { access_token := "atk", token_type := none,
             expires_in := some 60, id_token := none })).1 = .ok "atk" ∧
    ((OrigoAuth.get_token { cachedToken := none } 100
      (.ok { access_token := "atk", token_type := none,
             expires_in := some 60, id_token := none })).2.1.cachedToken.map
        (fun t => t.is_expired 100 60)) = some true := by
  constructor
  · rfl
  · rfl

/-- C2 (amended): get_token() invokes authenticate() iff no token is
cached or the cached token fails the expiry check; a valid cached
token is returned unchanged with no exchange; after a fresh exchange
the new token's access token is returned and that token is non-expired
provided now is nonzero and the response's expires_in exceeds the
60-second buffer. -/
theorem get_token_lazy_refresh (st : OrigoAuthState) (now : Int)
    (res : HttpResult AuthResponseData) :
    ((OrigoAuth.get_token st now res).2.2 = true ↔
      (∀ t, st.cachedToken = some t → t.is_expired now 60 = true)) ∧
    (∀ t, st.cachedToken = some t → t.is_expired now 60 = false →
      OrigoAuth.get_token st now res = (.ok t.access_token, st, false)) ∧
    (∀ d, res = .ok d → (OrigoAuth.get_token st now res).2.2 = true →
      (OrigoAuth.get_token st now res).1 =
          .ok (mkTokenResponse d now).access_token ∧
      (OrigoAuth.get_token st now res).2.1.cachedToken =
          some (mkTokenResponse d now) ∧
      (now ≠ 0 → 60 < d.expires_in.getD 3600 →
        (mkTokenResponse d now).is_expired now 60 = false)) := by
  refine ⟨?_, ?_, ?_⟩
  · cases hc : st.cachedToken with
    | none =>
        simp only [OrigoAuth.get_token, hc]
        cases res with
        | ok d => simp [OrigoAuth.authenticate]
        | err e => simp [OrigoAuth.authenticate]
    | some t =>
        simp only [OrigoAuth.get_token, hc]
        by_cases hexp : t.is_expired now 60 = true
        · rw [hexp]
          simp only [if_true]
          cases res with
          | ok d =>
              simp only [OrigoAuth.authenticate]
              constructor
              · intro _ t0 ht0
                cases ht0
                exact hexp
              · intro _
                trivial
          | err e =>
              simp only [OrigoAuth.authenticate]
              constructor
              · intro _ t0 ht0
                cases ht0
                exact hexp
              · intro _
                trivial
        · rw [Bool.not_eq_true] at hexp
          rw [hexp]
          simp only [Bool.false_eq_true, if_false]
          constructor
          · intro hfalse
            exact absurd hfalse (by simp)
          · intro hall
            have := hall t rfl
            rw [hexp] at this
            exact absurd this (by simp)
  · intro t ht hvalid
    simp only [OrigoAuth.get_token, ht, hvalid]
    simp
  · intro d hres hauth
    subst hres
    refine ⟨?_, ?_, ?_⟩
    · cases hc : st.cachedToken with
      | none => simp [OrigoAuth.get_token, hc, OrigoAuth.authenticate]
      | some t =>
          by_cases hexp : t.is_expired now 60 = true
          · simp [OrigoAuth.get_token, hc, hexp, OrigoAuth.authenticate]
          · rw [Bool.not_eq_true] at hexp
            simp [OrigoAuth.get_token, hc, hexp] at hauth
    · cases hc : st.cachedToken with
      | none => simp [OrigoAuth.get_token, hc, OrigoAuth.authenticate]
      | some t =>
          by_cases hexp : t.is_expired now 60 = true
          · simp [OrigoAuth.get_token, hc, hexp, OrigoAuth.authenticate]
          · rw [Bool.not_eq_true] at hexp
            simp [OrigoAuth.get_token, hc, hexp] at hauth
    · intro hnow hexpin
      unfold TokenResponse.is_expired mkTokenResponse
      simp only
      rw [if_neg hnow]
      rw [decide_eq_false_iff_not, not_le]
      omega

/-- Witness for C2 (amended) at a cached valid token and at a fresh
exchange with the default expires_in 3600. -/
theorem get_token_lazy_refresh_witness :
    ((OrigoAuth.get_token
        { cachedToken := some
            { access_token := "old", token_type := "Bearer",
              expires_in := 3600, id_token := none, obtained_at := 50 } }
        100 (.err { status := none, body := "down" })) =
      (.ok "old",
        { cachedToken := some
            { access_token := "old", token_type := "Bearer",
              expires_in := 3600, id_token := none, obtained_at := 50 } },
        false)) ∧
    ((OrigoAuth.get_token { cachedToken := none } 100
        (.ok { access_token := "new", token_type := none,
               expires_in := none, id_token := none })).1 = .ok "new") := by
  constructor
  · exact (get_token_lazy_refresh
        { cachedToken := some
            { access_token := "old", token_type := "Bearer",
              expires_in := 3600, id_token := none, obtained_at := 50 } }
        100 (.err { status := none, body := "down" })).2.1
      { access_token := "old", token_type := "Bearer",
        expires_in := 3600, id_token := none, obtained_at := 50 }
      rfl (by decide)
  · exact ((get_token_lazy_refresh { cachedToken := none } 100
        (.ok { access_token := "new", token_type := none,
               expires_in := none, id_token := none })).2.2
      { access_token := "new", token_type := none,
        expires_in := none, id_token := none } rfl rfl).1

/-- C7: a failed exchange propagates the transport error (status and
body) without retry, leaving the previously cached token — and its
usability at any instant — unchanged; a successful exchange installs a
freshly constructed TokenResponse, superseding rather than mutating
the prior one. -/
theorem authenticate_failure_preserves_state (st : OrigoAuthState)
    (now : Int) (e : TransportError) (d : AuthResponseData) :
    OrigoAuth.authenticate st now (.err e) = (.error e, st) ∧
    (∀ t, st.cachedToken = some t →
      (OrigoAuth.authenticate st now (.err e)).2.cachedToken = some t ∧
      ∀ later : Int, t.is_expired later 60 = false →
        ∀ t2, (OrigoAuth.authenticate st now (.err e)).2.cachedToken = some t2 →
          t2.is_expired later 60 = false) ∧
    OrigoAuth.authenticate st now (.ok d) =
      (.ok (mkTokenResponse d now),
        { cachedToken := some (mkTokenResponse d now) }) := by
  refine ⟨rfl, ?_, rfl⟩
  intro t ht
  refine ⟨by simp [OrigoAuth.authenticate, ht], ?_⟩
  intro later hvalid t2 ht2
  simp only [OrigoAuth.authenticate, ht] at ht2
  cases ht2
  exact hvalid

/-- Witness for C7 at a concrete cached token, error and response. -/
theorem authenticate_failure_preserves_state_witness :
    (OrigoAuth.authenticate
      { cachedToken := some
          { access_token := "old", token_type := "Bearer",
            expires_in := 3600, id_token := none, obtained_at := 50 } }
      100 (.err { status := some 401, body := "denied" })).2.cachedToken =
      some { access_token := "old", token_type := "Bearer",
             expires_in := 3600, id_token := none, obtained_at := 50 } := by
  exact ((authenticate_failure_preserves_state
      { cachedToken := some
          { access_token := "old", token_type := "Bearer",
            expires_in := 3600, id_token := none, obtained_at := 50 } }
      100 { status := some 401, body := "denied" }
      { access_token := "x", token_type := none, expires_in := none,
        id_token := none }).2.1
    { access_token := "old", token_type := "Bearer",
      expires_in := 3600, id_token := none, obtained_at := 50 } rfl).1

/-- Phase of one logical caller executing get_token(): `start` = about
to evaluate `not self._token or self._token.is_expired()`; `willAuth`
= that check observed no valid token and authenticate() is about to
run; `finished` = the call returned.  get_token() has no lock, so the
check and the exchange are two separate steps that other callers can
interleave with. -/
inductive CallerPhase where
  | start
  | willAuth
  | finished
deriving Repr, DecidableEq

/-- Shared state for interleaved get_token() callers: the one cached
`self._token`, the number of authentication exchanges issued so far,
and each caller's phase. -/
structure FlightState where
  token : Option TokenResponse
  authCount : Nat
  phases : List CallerPhase
deriving Repr, DecidableEq

/-- One scheduler step: run the next atomic piece of caller `i`'s
get_token().  A caller at `start` evaluates the cached-token check; a
caller at `willAuth` performs the exchange (installing `fresh` and
counting one outbound authentication request). -/
def flightStep (now : Int) (fresh : TokenResponse) (s : FlightState)
    (i : Nat) : FlightState :=
  match s.phases.get? i with
  | some .start =>
      let needs :=
        match s.token with
        | none => true
        | some t => t.is_expired now 60
      if needs then { s with phases := s.phases.set i .willAuth }
      else { s with phases := s.phases.set i .finished }
  | some .willAuth =>
      { token := some fresh, authCount := s.authCount + 1,
        phases := s.phases.set i .finished }
  | _ => s

/-- Run a schedule (list of caller indices) over the interleaving
model of concurrent get_token() calls. -/
def flightRun (now : Int) (fresh : TokenResponse) (sched : List Nat)
    (s : FlightState) : FlightState :=
  sched.foldl (flightStep now fresh) s

/-- Counterexample to C8: with no valid token cached, two concurrent
get_token() callers whose unsynchronized checks both run before either
exchange each issue their own authentication request — two exchanges,
not exactly one. -/
theorem concurrent_get_token_two_exchanges :
    (flightRun 100
      { access_token := "atk", token_type := "Bearer", expires_in := 3600,
        id_token := none, obtained_at := 100 }
      [0, 1, 0, 1]
      { token := none, authCount := 0, phases := [.start, .start] }).authCount
      = 2 := by
  rfl

/-- C8 (amended): get_token() has no single-flight synchronization:
every caller whose check-then-refresh observes a missing/expired token
issues its own exchange, so an interleaving of two callers performs
two exchanges, while serialized execution performs exactly one — the
second caller observes the first caller's fresh token. -/
theorem get_token_unsynchronized_refresh (now : Int)
    (fresh : TokenResponse) (h : fresh.is_expired now 60 = false) :
    (flightRun now fresh [0, 1, 0, 1]
      { token := none, authCount := 0, phases := [.start, .start] }).authCount
      = 2 ∧
    (flightRun now fresh [0, 0, 1]
      { token := none, authCount := 0, phases := [.start, .start] }).authCount
      = 1 := by
  constructor
  · rfl
  · simp [flightRun, flightStep, h]

/-- Witness for C8 (amended) at a concrete fresh token valid at now =
100. -/
theorem get_token_unsynchronized_refresh_witness :
    (flightRun 100
      { access_token := "fresh", token_type := "Bearer", expires_in := 3600,
        id_token := none, obtained_at := 100 }
      [0, 0, 1]
      { token := none, authCount := 0, phases := [.start, .start] }).authCount
      = 1 := by
  exact (get_token_unsynchronized_refresh 100
    { access_token := "fresh", token_type := "Bearer", expires_in := 3600,
      id_token := none, obtained_at := 100 } (by decide)).2

/-- Pass lifecycle states (src/src/api/credentials.py, class
PassStatus). -/
inductive PassStatus where
  | PENDING
  | PROVISIONING
  | ACTIVE
  | SUSPENDED
  | CANCELLED
  | DELETED
deriving Repr, DecidableEq

/-- Pass model (src/src/api/credentials.py, class Pass).  The
credential descriptor dicts are abstracted to key-value pairs; the
`created` datetime is an integer instant. -/
structure Pass where
  user_id : String
  pass_template_id : String
  id : Option String
  status : PassStatus
  created : Option Int
  platform : Option String
  credentials : List (String × String)
deriving Repr, DecidableEq

/-- A raised Python ValueError (the only exception the mock credential
store itself raises). -/
inductive PyError where
  | valueError (msg : String)
deriving Repr, DecidableEq

/-- Python dict read `d.get(k)` / `k in d` over an association-list
embedding of a dict (keys distinct by construction; first match
wins). -/
def dictGet {α : Type} (ps : List (String × α)) (k : String) : Option α :=
  match ps with
  | [] => none
  | kv :: rest => if kv.1 = k then some kv.2 else dictGet rest k

/-- Writing `self._passes[pass_id].status = x` mutates the stored Pass
in place; embedded as replacing the entry under that key. -/
def updatePass (ps : List (String × Pass)) (pid : String) (p : Pass) :
    List (String × Pass) :=
  ps.map (fun kv => if kv.1 = pid then (pid, p) else kv)

/-- MockCredentialManagementAPI.suspend_pass (src/src/api/credentials.py
lines 456-466): if the id is present, set status to SUSPENDED (from
whatever state) and return the stored pass; otherwise raise
ValueError("Pass not found: ..."). -/
def MockCredentialManagementAPI.suspend_pass (ps : List (String × Pass))
    (pass_id : String) : Except PyError (Pass × List (String × Pass)) :=
  match dictGet ps pass_id with
  | some p =>
      let p2 := { p with status := .SUSPENDED }
      .ok (p2, updatePass ps pass_id p2)
  | none => .error (.valueError ("Pass not found: " ++ pass_id))

/-- MockCredentialManagementAPI.resume_pass (src/src/api/credentials.py
lines 468-478): if the id is present, set status to ACTIVE (from
whatever state); otherwise raise ValueError. -/
def MockCredentialManagementAPI.resume_pass (ps : List (String × Pass))
    (pass_id : String) : Except PyError (Pass × List (String × Pass)) :=
  match dictGet ps pass_id with
  | some p =>
      let p2 := { p with status := .ACTIVE }
      .ok (p2, updatePass ps pass_id p2)
  | none => .error (.valueError ("Pass not found: " ++ pass_id))

/-- MockCredentialManagementAPI.delete_pass (src/src/api/credentials.py
lines 480-489): delete the key if present, print success and return
True either way. -/
def MockCredentialManagementAPI.delete_pass (ps : List (String × Pass))
    (pass_id : String) : Bool × List (String × Pass) :=
  (true, ps.filter (fun kv => decide (kv.1 ≠ pass_id)))

theorem dictGet_cons {α : Type} (kv : String × α) (rest : List (String × α))
    (k : String) :
    dictGet (kv :: rest) k = if kv.1 = k then some kv.2 else dictGet rest k := rfl

theorem updatePass_cons (kv : String × Pass) (rest : List (String × Pass))
    (pid : String) (p : Pass) :
    updatePass (kv :: rest) pid p =
      (if kv.1 = pid then (pid, p) else kv) :: updatePass rest pid p := rfl

theorem delete_pass_cons (kv : String × Pass) (rest : List (String × Pass))
    (pid : String) :
    (MockCredentialManagementAPI.delete_pass (kv :: rest) pid).2 =
      if kv.1 = pid then (MockCredentialManagementAPI.delete_pass rest pid).2
      else kv :: (MockCredentialManagementAPI.delete_pass rest pid).2 := by
  simp only [MockCredentialManagementAPI.delete_pass, List.filter_cons]
  by_cases hk : kv.1 = pid
  · simp [hk]
  · simp [hk]

theorem dictGet_updatePass_self (ps : List (String × Pass)) (pid : String)
    (p2 : Pass) (h : (dictGet ps pid).isSome) :
    dictGet (updatePass ps pid p2) pid = some p2 := by
  induction ps with
  | nil => simp [dictGet] at h
  | cons kv rest ih =>
      rw [updatePass_cons]
      by_cases hk : kv.1 = pid
      · rw [if_pos hk, dictGet_cons]
        simp
      · rw [if_neg hk, dictGet_cons, if_neg hk]
        rw [dictGet_cons, if_neg hk] at h
        exact ih h

theorem dictGet_updatePass_other (ps : List (String × Pass)) (pid q : String)
    (p2 : Pass) (h : q ≠ pid) :
    dictGet (updatePass ps pid p2) q = dictGet ps q := by
  induction ps with
  | nil => rfl
  | cons kv rest ih =>
      rw [updatePass_cons, dictGet_cons, dictGet_cons]
      by_cases hk : kv.1 = pid
      · rw [if_pos hk]
        have h1 : ¬((pid, p2).1 = q) := fun hpq => h (hpq.symm)
        have h2 : ¬(kv.1 = q) := by rw [hk]; exact fun hpq => h hpq.symm
        rw [if_neg h1, if_neg h2]
        exact ih
      · rw [if_neg hk]
        by_cases hq : kv.1 = q
        · rw [if_pos hq, if_pos hq]
        · rw [if_neg hq, if_neg hq]
          exact ih

theorem dictGet_delete_self (ps : List (String × Pass)) (pid : String) :
    dictGet ((MockCredentialManagementAPI.delete_pass ps pid).2) pid = none := by
  induction ps with
  | nil => rfl
  | cons kv rest ih =>
      rw [delete_pass_cons]
      by_cases hk : kv.1 = pid
      · rw [if_pos hk]
        exact ih
      · rw [if_neg hk, dictGet_cons, if_neg hk]
        exact ih

theorem dictGet_delete_other (ps : List (String × Pass)) (pid q : String)
    (h : q ≠ pid) :
    dictGet ((MockCredentialManagementAPI.delete_pass ps pid).2) q =
      dictGet ps q := by
  induction ps with
  | nil => rfl
  | cons kv rest ih =>
      rw [delete_pass_cons, dictGet_cons]
      by_cases hk : kv.1 = pid
      · rw [if_pos hk]
        have h2 : ¬(kv.1 = q) := by rw [hk]; exact fun hpq => h hpq.symm
        rw [if_neg h2]
        exact ih
      · rw [if_neg hk, dictGet_cons]
        by_cases hq : kv.1 = q
        · rw [if_pos hq, if_pos hq]
        · rw [if_neg hq, if_neg hq]
          exact ih

theorem delete_absent_noop (ps : List (String × Pass)) (pid : String)
    (h : dictGet ps pid = none) :
    (MockCredentialManagementAPI.delete_pass ps pid).2 = ps := by
  induction ps with
  | nil => rfl
  | cons kv rest ih =>
      rw [dictGet_cons] at h
      by_cases hk : kv.1 = pid
      · rw [if_pos hk] at h
        exact absurd h (by simp)
      · rw [if_neg hk] at h
        rw [delete_pass_cons, if_neg hk, ih h]

/-- Counterexample to C3: resume_pass on a PENDING (never provisioned)
pass does not signal any InvalidStateTransition — the mock has no such
exception and no transition table; it unconditionally sets the stored
status to ACTIVE and reports success. -/
theorem resume_pending_pass_succeeds :
    MockCredentialManagementAPI.resume_pass
      [("p1", { user_id := "u1", pass_template_id := "t1", id := some "p1",
                status := .PENDING, created := none, platform := none,
                credentials := [] })] "p1" =
      .ok ({ user_id := "u1", pass_template_id := "t1", id := some "p1",
             status := .ACTIVE, created := none, platform := none,
             credentials := [] },
           [("p1", { user_id := "u1", pass_template_id := "t1",
                     id := some "p1", status := .ACTIVE, created := none,
                     platform := none, credentials := [] })]) := by
  rfl

/-- C3 (amended): whenever pass_id is present, suspend_pass succeeds
and sets the stored status to SUSPENDED and resume_pass succeeds and
sets it to ACTIVE, from every starting state (PENDING included);
other entries are untouched; an unknown pass_id raises
ValueError("Pass not found: ...") — there is no InvalidStateTransition
and no state-legality check. -/
theorem suspend_resume_set_status_unconditionally
    (ps : List (String × Pass)) (pid : String) :
    (∀ p, dictGet ps pid = some p →
      MockCredentialManagementAPI.suspend_pass ps pid =
        .ok ({ p with status := .SUSPENDED },
             updatePass ps pid { p with status := .SUSPENDED }) ∧
      dictGet (updatePass ps pid { p with status := .SUSPENDED }) pid =
        some { p with status := .SUSPENDED } ∧
      MockCredentialManagementAPI.resume_pass ps pid =
        .ok ({ p with status := .ACTIVE },
             updatePass ps pid { p with status := .ACTIVE }) ∧
      dictGet (updatePass ps pid { p with status := .ACTIVE }) pid =
        some { p with status := .ACTIVE } ∧
      (∀ q, q ≠ pid →
        dictGet (updatePass ps pid { p with status := .SUSPENDED }) q =
          dictGet ps q)) ∧
    (dictGet ps pid = none →
      MockCredentialManagementAPI.suspend_pass ps pid =
        .error (.valueError ("Pass not found: " ++ pid)) ∧
      MockCredentialManagementAPI.resume_pass ps pid =
        .error (.valueError ("Pass not found: " ++ pid))) := by
  constructor
  · intro p hp
    refine ⟨?_, ?_, ?_, ?_, ?_⟩
    · simp [MockCredentialManagementAPI.suspend_pass, hp]
    · exact dictGet_updatePass_self ps pid _ (by simp [hp])
    · simp [MockCredentialManagementAPI.resume_pass, hp]
    · exact dictGet_updatePass_self ps pid _ (by simp [hp])
    · intro q hq
      exact dictGet_updatePass_other ps pid q _ hq
  · intro hnone
    constructor
    · simp [MockCredentialManagementAPI.suspend_pass, hnone]
    · simp [MockCredentialManagementAPI.resume_pass, hnone]

/-- Witness for C3 (amended): a store holding an ACTIVE pass "p1",
suspended; and an unknown id raising ValueError. -/
theorem suspend_resume_set_status_unconditionally_witness :
    MockCredentialManagementAPI.suspend_pass
      [("p1", { user_id := "u1", pass_template_id := "t1", id := some "p1",
                status := .ACTIVE, created := none, platform := none,
                credentials := [] })] "p1" =
      .ok ({ user_id := "u1", pass_template_id := "t1", id := some "p1",
             status := .SUSPENDED, created := none, platform := none,
             credentials := [] },
           updatePass
             [("p1", { user_id := "u1", pass_template_id := "t1",
                       id := some "p1", status := .ACTIVE, created := none,
                       platform := none, credentials := [] })] "p1"
             { user_id := "u1", pass_template_id := "t1", id := some "p1",
               status := .SUSPENDED, created := none, platform := none,
               credentials := [] }) ∧
    MockCredentialManagementAPI.resume_pass [] "nope" =
      .error (.valueError ("Pass not found: " ++ "nope")) := by
  constructor
  · exact ((suspend_resume_set_status_unconditionally
      [("p1", { user_id := "u1", pass_template_id := "t1", id := some "p1",
                status := .ACTIVE, created := none, platform := none,
                credentials := [] })] "p1").1
      { user_id := "u1", pass_template_id := "t1", id := some "p1",
        status := .ACTIVE, created := none, platform := none,
        credentials := [] } rfl).1
  · exact ((suspend_resume_set_status_unconditionally [] "nope").2 rfl).2

/-- CredentialManagementAPI.delete_pass (src/src/api/credentials.py
lines 303-324): issues DELETE /pass/{pass_id}; `raise_for_status()`
propagates any HTTP error status the platform answers — a 404 for an
unknown or already-deleted id included — and True is returned only on
a success status. -/
def CredentialManagementAPI.delete_pass (pass_id : String)
    (res : HttpResult Unit) : Except TransportError Bool :=
  match pass_id, res with
  | _, .ok _ => .ok true
  | _, .err e => .error e

/-- Counterexample to C4: through the networked client, delete_pass on
an unknown or already-deleted pass_id does not succeed as a no-op —
raise_for_status propagates the platform's 404 as an exception, so the
call raises instead of returning success. -/
theorem delete_pass_unknown_id_raises :
    CredentialManagementAPI.delete_pass "pass-unknown"
      (.err { status := some 404, body := "Not Found" }) =
      .error { status := some 404, body := "Not Found" } := by
  rfl

/-- C4 (amended): the mock's delete_pass is the idempotent no-op the
claim describes — success for every pass_id, the pass absent
afterwards whatever state it was in, other passes untouched, and an
unknown/already-deleted id leaving the store exactly as it was; the
networked client, however, returns True only when the transport
reports success and otherwise propagates the HTTP error via
raise_for_status — in particular the platform's 404 for an unknown or
already-deleted id — rather than succeeding as a no-op (no
NotFoundError class exists either way). -/
theorem delete_pass_idempotent_noop (ps : List (String × Pass))
    (pid : String) (e : TransportError) :
    (MockCredentialManagementAPI.delete_pass ps pid).1 = true ∧
    dictGet ((MockCredentialManagementAPI.delete_pass ps pid).2) pid = none ∧
    (∀ q, q ≠ pid →
      dictGet ((MockCredentialManagementAPI.delete_pass ps pid).2) q =
        dictGet ps q) ∧
    (dictGet ps pid = none →
      (MockCredentialManagementAPI.delete_pass ps pid).2 = ps) ∧
    CredentialManagementAPI.delete_pass pid (.ok ()) = .ok true ∧
    CredentialManagementAPI.delete_pass pid (.err e) = .error e := by
  refine ⟨rfl, dictGet_delete_self ps pid, ?_, delete_absent_noop ps pid,
    rfl, rfl⟩
  intro q hq
  exact dictGet_delete_other ps pid q hq

/-- Witness for C4 (amended): deleting from a store holding one
SUSPENDED pass removes it; deleting the now-unknown id again is a
no-op success in the mock; the networked client propagates a 404. -/
theorem delete_pass_idempotent_noop_witness :
    dictGet ((MockCredentialManagementAPI.delete_pass
      [("p1", { user_id := "u1", pass_template_id := "t1", id := some "p1",
                status := .SUSPENDED, created := none, platform := none,
                credentials := [] })] "p1").2) "p1" = none ∧
    (MockCredentialManagementAPI.delete_pass [] "p1").1 = true ∧
    (MockCredentialManagementAPI.delete_pass [] "p1").2 = [] ∧
    CredentialManagementAPI.delete_pass "p1"
      (.err { status := some 404, body := "Not Found" }) =
      .error { status := some 404, body := "Not Found" } := by
  refine ⟨(delete_pass_idempotent_noop
    [("p1", { user_id := "u1", pass_template_id := "t1", id := some "p1",
              status := .SUSPENDED, created := none, platform := none,
              credentials := [] })] "p1"
    { status := some 404, body := "Not Found" }).2.1, ?_, ?_, ?_⟩
  · exact (delete_pass_idempotent_noop [] "p1"
      { status := some 404, body := "Not Found" }).1
  · exact ((delete_pass_idempotent_noop [] "p1"
      { status := some 404, body := "Not Found" }).2.2.2.1) rfl
  · exact (delete_pass_idempotent_noop [] "p1"
      { status := some 404, body := "Not Found" }).2.2.2.2.2

/-- Event filter for callback registration (src/src/api/callbacks.py,
class EventFilter). -/
structure EventFilter where
  event_types : List String
  id : Option String
deriving Repr, DecidableEq

/-- The JSON object EventFilter.to_dict produces. -/
structure FilterPayload where
  eventTypes : List String
deriving Repr, DecidableEq

def EventFilter.to_dict (f : EventFilter) : FilterPayload :=
  { eventTypes := f.event_types }

/-- Callback (webhook) registration (src/src/api/callbacks.py, class
CallbackRegistration). -/
structure CallbackRegistration where
  url : String
  filter : EventFilter
  http_header : Option String
  secret : Option String
  id : Option String
  created : Option Int
deriving Repr, DecidableEq

/-- Python truthiness of an Optional[str]: None and "" are falsy. -/
def truthy (s : Option String) : Bool :=
  match s with
  | none => false
  | some s => decide (s ≠ "")

/-- The outbound registration JSON body; an Option field is a present
or absent key. -/
structure RegistrationPayload where
  url : String
  filter : FilterPayload
  httpHeader : Option String
  secret : Option String
deriving Repr, DecidableEq

/-- CallbackRegistration.to_dict (src/src/api/callbacks.py lines
118-130): url and filter always; httpHeader and secret only when both
are truthy (`if self.http_header and self.secret`), else both keys are
left out. -/
def CallbackRegistration.to_dict (r : CallbackRegistration) :
    RegistrationPayload :=
  if truthy r.http_header && truthy r.secret then
    { url := r.url, filter := r.filter.to_dict,
      httpHeader := r.http_header, secret := r.secret }
  else
    { url := r.url, filter := r.filter.to_dict,
      httpHeader := none, secret := none }

/-- The JSON body of a successful POST /callback response. -/
structure CallbackResponseData where
  id : Option String
deriving Repr, DecidableEq

/-- CallbackAPI.register_callback (src/src/api/callbacks.py lines
256-308): POSTs `registration.to_dict()` with no local checks of any
kind; on success stores the assigned id on the registration and
returns it; on RequestException re-raises. -/
def CallbackAPI.register_callback (r : CallbackRegistration)
    (res : HttpResult CallbackResponseData) :
    Except TransportError CallbackRegistration :=
  match res with
  | .ok d => .ok { r with id := d.id }
  | .err e => .error e

/-- MockCallbackAPI.register_callback (src/src/api/callbacks.py lines
411-441): assigns a generated id (`newId` embeds the uuid draw),
stores the registration unconditionally, and returns it. -/
def MockCallbackAPI.register_callback
    (regs : List (String × CallbackRegistration))
    (r : CallbackRegistration) (newId : String) :
    CallbackRegistration × List (String × CallbackRegistration) :=
  let r2 := { r with id := some newId }
  (r2, (newId, r2) :: regs)

/-- Counterexample to C5: a registration with http_header set but
secret omitted — and a plain-http url — is accepted: the mock
registers it and returns an assigned id, the real client succeeds
whenever the transport does, and the unpaired header is silently
dropped from the outbound payload.  No ValidationError is raised and
the HTTPS scheme is never checked. -/
theorem register_unpaired_credential_accepted :
    (MockCallbackAPI.register_callback []
      { url := "http://insecure.example/hook",
        filter := { event_types := [], id := none },
        http_header := some "Authorization", secret := none,
        id := none, created := none } "cb-1").1.id = some "cb-1" ∧
    CallbackAPI.register_callback
      { url := "http://insecure.example/hook",
        filter := { event_types := [], id := none },
        http_header := some "Authorization", secret := none,
        id := none, created := none } (.ok { id := some "cb-9" }) =
      .ok { url := "http://insecure.example/hook",
            filter := { event_types := [], id := none },
            http_header := some "Authorization", secret := none,
            id := some "cb-9", created := none } ∧
    CallbackRegistration.to_dict
      { url := "http://insecure.example/hook",
        filter := { event_types := [], id := none },
        http_header := some "Authorization", secret := none,
        id := none, created := none } =
      { url := "http://insecure.example/hook",
        filter := { eventTypes := [] },
        httpHeader := none, secret := none } := by
  refine ⟨rfl, rfl, rfl⟩

/-- C5 (amended): register_callback validates nothing: the mock
registers every registration under the generated id and returns it;
the real client fails only with the transport and succeeds on any
2xx response regardless of url scheme or header/secret pairing; the
pairing invariant is applied silently by to_dict, which omits both
keys whenever either credential is missing or empty. -/
theorem register_callback_no_validation
    (regs : List (String × CallbackRegistration))
    (r : CallbackRegistration) (newId : String)
    (d : CallbackResponseData) (e : TransportError) :
    MockCallbackAPI.register_callback regs r newId =
      ({ r with id := some newId }, (newId, { r with id := some newId }) :: regs) ∧
    CallbackAPI.register_callback r (.ok d) = .ok { r with id := d.id } ∧
    CallbackAPI.register_callback r (.err e) = .error e ∧
    (truthy r.http_header = false ∨ truthy r.secret = false →
      r.to_dict.httpHeader = none ∧ r.to_dict.secret = none) := by
  refine ⟨rfl, rfl, rfl, ?_⟩
  intro h
  unfold CallbackRegistration.to_dict
  rcases h with h | h
  · rw [h]
    simp
  · rw [h]
    simp

/-- Witness for C5 (amended) at a secret-less registration. -/
theorem register_callback_no_validation_witness :
    (MockCallbackAPI.register_callback []
      { url := "https://acme.example/hook",
        filter := { event_types := ["USER_CREATED"], id := none },
        http_header := some "Authorization", secret := none,
        id := none, created := none } "cb-2") =
      ({ url := "https://acme.example/hook",
         filter := { event_types := ["USER_CREATED"], id := none },
         http_header := some "Authorization", secret := none,
         id := some "cb-2", created := none },
       [("cb-2",
         { url := "https://acme.example/hook",
           filter := { event_types := ["USER_CREATED"], id := none },
           http_header := some "Authorization", secret := none,
           id := some "cb-2", created := none })]) ∧
    (CallbackRegistration.to_dict
      { url := "https://acme.example/hook",
        filter := { event_types := ["USER_CREATED"], id := none },
        http_header := some "Authorization", secret := none,
        id := none, created := none }).secret = none := by
  constructor
  · exact (register_callback_no_validation []
      { url := "https://acme.example/hook",
        filter := { event_types := ["USER_CREATED"], id := none },
        http_header := some "Authorization", secret := none,
        id := none, created := none } "cb-2" { id := none }
      { status := none, body := "" }).1
  · exact ((register_callback_no_validation []
      { url := "https://acme.example/hook",
        filter := { event_types := ["USER_CREATED"], id := none },
        http_header := some "Authorization", secret := none,
        id := none, created := none } "cb-2" { id := none }
      { status := none, body := "" }).2.2.2 (Or.inr rfl)).2

/-- C10: the outbound payload contains the httpHeader key iff it
contains the secret key; and whenever exactly one of http_header and
secret is set on the registration, both keys are silently omitted —
the unpaired credential is dropped, not transmitted or rejected. -/
theorem to_dict_header_secret_paired (r : CallbackRegistration) :
    ((r.to_dict).httpHeader.isSome = (r.to_dict).secret.isSome) ∧
    (r.http_header.isSome ≠ r.secret.isSome →
      (r.to_dict).httpHeader = none ∧ (r.to_dict).secret = none) := by
  constructor
  · unfold CallbackRegistration.to_dict
    by_cases hc : truthy r.http_header && truthy r.secret
    · rw [if_pos hc]
      have h1 : truthy r.http_header = true := by
        cases hx : truthy r.http_header with
        | true => rfl
        | false => rw [hx] at hc; exact absurd hc (by simp)
      have h2 : truthy r.secret = true := by
        cases hx : truthy r.secret with
        | true => rfl
        | false => rw [hx] at hc; exact absurd hc (by simp)
      have hs1 : r.http_header.isSome := by
        cases hh : r.http_header with
        | none => rw [hh] at h1; exact absurd h1 (by simp [truthy])
        | some s => rfl
      have hs2 : r.secret.isSome := by
        cases hh : r.secret with
        | none => rw [hh] at h2; exact absurd h2 (by simp [truthy])
        | some s => rfl
      simp only
      rw [hs1, hs2]
    · rw [if_neg hc]
  · intro hmix
    unfold CallbackRegistration.to_dict
    by_cases hc : truthy r.http_header && truthy r.secret
    · exfalso
      have h1 : truthy r.http_header = true := by
        cases hx : truthy r.http_header with
        | true => rfl
        | false => rw [hx] at hc; exact absurd hc (by simp)
      have h2 : truthy r.secret = true := by
        cases hx : truthy r.secret with
        | true => rfl
        | false => rw [hx] at hc; exact absurd hc (by simp)
      have hs1 : r.http_header.isSome = true := by
        cases hh : r.http_header with
        | none => rw [hh] at h1; exact absurd h1 (by simp [truthy])
        | some s => rfl
      have hs2 : r.secret.isSome = true := by
        cases hh : r.secret with
        | none => rw [hh] at h2; exact absurd h2 (by simp [truthy])
        | some s => rfl
      rw [hs1, hs2] at hmix
      exact hmix rfl
    · rw [if_neg hc]
      exact ⟨rfl, rfl⟩

/-- Witness for C10 at a registration whose secret is missing. -/
theorem to_dict_header_secret_paired_witness :
    (CallbackRegistration.to_dict
      { url := "https://acme.example/hook",
        filter := { event_types := [], id := none },
        http_header := some "Authorization", secret := none,
        id := none, created := none }).httpHeader = none := by
  exact ((to_dict_header_secret_paired
    { url := "https://acme.example/hook",
      filter := { event_types := [], id := none },
      http_header := some "Authorization", secret := none,
      id := none, created := none }).2 (by decide)).1

/-- The value of one Python digit character. -/
def digitVal (c : Char) : Option Nat :=
  if c.isDigit then some (c.toNat - 48) else none

def twoDigits (a b : Char) : Option Nat :=
  match digitVal a, digitVal b with
  | some x, some y => some (10 * x + y)
  | _, _ => none

def fourDigits (a b c d : Char) : Option Nat :=
  match twoDigits a b, twoDigits c d with
  | some x, some y => some (100 * x + y)
  | _, _ => none

/-- A parsed datetime.datetime value; `offset_minutes` is the fixed
UTC offset of an aware datetime, none for a naive one. -/
structure PyDateTime where
  year : Nat
  month : Nat
  day : Nat
  hour : Nat
  minute : Nat
  second : Nat
  offset_minutes : Option Int
deriving Repr, DecidableEq

def parseDatePart (y1 y2 y3 y4 m1 m2 d1 d2 : Char) :
    Option (Nat × Nat × Nat) :=
  match fourDigits y1 y2 y3 y4, twoDigits m1 m2, twoDigits d1 d2 with
  | some y, some mo, some d =>
      if 1 ≤ mo ∧ mo ≤ 12 ∧ 1 ≤ d ∧ d ≤ 31 then some (y, mo, d) else none
  | _, _, _ => none

def parseTimePart (h1 h2 n1 n2 s1 s2 : Char) :
    Option (Nat × Nat × Nat) :=
  match twoDigits h1 h2, twoDigits n1 n2, twoDigits s1 s2 with
  | some h, some n, some s =>
      if h < 24 ∧ n < 60 ∧ s < 60 then some (h, n, s) else none
  | _, _, _ => none

def parseOffsetPart (sign o1 o2 o3 o4 : Char) : Option Int :=
  match twoDigits o1 o2, twoDigits o3 o4 with
  | some oh, some om =>
      if oh < 24 ∧ om < 60 then
        if sign = '+' then some ((oh * 60 + om : Nat) : Int)
        else if sign = '-' then some (-((oh * 60 + om : Nat) : Int))
        else none
      else none
  | _, _ => none

/-- Modelled from the Python standard library: datetime.fromisoformat
on the ISO-8601 fragment this integration exchanges — `YYYY-MM-DD`,
optionally followed by `THH:MM:SS` and a `+HH:MM`/`-HH:MM` offset.
A string outside the fragment yields none (fromisoformat raises
ValueError); in particular the empty string is rejected. -/
def fromisoformat (s : String) : Option PyDateTime :=
  match s.data with
  | [y1, y2, y3, y4, '-', m1, m2, '-', d1, d2] =>
      match parseDatePart y1 y2 y3 y4 m1 m2 d1 d2 with
      | some (y, mo, d) =>
          some { year := y, month := mo, day := d, hour := 0, minute := 0,
                 second := 0, offset_minutes := none }
      | none => none
  | [y1, y2, y3, y4, '-', m1, m2, '-', d1, d2, 'T',
     h1, h2, ':', n1, n2, ':', s1, s2] =>
      match parseDatePart y1 y2 y3 y4 m1 m2 d1 d2,
            parseTimePart h1 h2 n1 n2 s1 s2 with
      | some (y, mo, d), some (h, n, s) =>
          some { year := y, month := mo, day := d, hour := h, minute := n,
                 second := s, offset_minutes := none }
      | _, _ => none
  | [y1, y2, y3, y4, '-', m1, m2, '-', d1, d2, 'T',
     h1, h2, ':', n1, n2, ':', s1, s2, sg, o1, o2, ':', o3, o4] =>
      match parseDatePart y1 y2 y3 y4 m1 m2 d1 d2,
            parseTimePart h1 h2 n1 n2 s1 s2,
            parseOffsetPart sg o1 o2 o3 o4 with
      | some (y, mo, d), some (h, n, s), some off =>
          some { year := y, month := mo, day := d, hour := h, minute := n,
                 second := s, offset_minutes := some off }
      | _, _, _ => none
  | _ => none

/-- `str.replace("Z", "+00:00")` for the single-character pattern, at
the character-list level. -/
def replaceZchars : List Char → List Char
  | [] => []
  | c :: rest =>
      if c = 'Z' then
        '+' :: '0' :: '0' :: ':' :: '0' :: '0' :: replaceZchars rest
      else c :: replaceZchars rest

def pyReplaceZ (s : String) : String :=
  { data := replaceZchars s.data }

/-- Inbound webhook payload for one CloudEvent, a JSON object whose
keys may each be absent; the `data` member is an open dict embedded as
string key-value pairs. -/
structure RawPayload where
  id : Option String
  type : Option String
  subject : Option String
  time : Option String
  data : Option (List (String × String))
  source : Option String
  specversion : Option String
deriving Repr, DecidableEq

/-- CloudEvent (src/src/api/callbacks.py, class CloudEvent). -/
structure CloudEvent where
  type : String
  subject : String
  time : PyDateTime
  data : List (String × String)
  id : Option String
  source : Option String
  specversion : String
deriving Repr, DecidableEq

/-- CloudEvent.from_dict (src/src/api/callbacks.py lines 156-167):
every field is read with a `.get` default — a missing type or subject
becomes "" — and only the `time` member is actually parsed:
`datetime.fromisoformat(payload.get("time", "").replace("Z", "+00:00"))`
raises ValueError when the (possibly defaulted) string is not ISO
format. -/
def CloudEvent.from_dict (p : RawPayload) : Except PyError CloudEvent :=
  match fromisoformat (pyReplaceZ (p.time.getD "")) with
  | none =>
      .error (.valueError
        ("Invalid isoformat string: " ++ pyReplaceZ (p.time.getD "")))
  | some t =>
      .ok { id := p.id
            type := p.type.getD ""
            subject := p.subject.getD ""
            time := t
            data := p.data.getD []
            source := p.source
            specversion := p.specversion.getD "1.0" }

/-- Counterexample to C6: a payload with no "type" member (and none of
"subject" either here beyond the required one) parses successfully —
from_dict defaults type to "" instead of failing; and no
MalformedEventError exists, the only parse failure is the ValueError
out of fromisoformat. -/
theorem from_dict_missing_type_parses :
    CloudEvent.from_dict
      { id := some "evt-1", type := none, subject := some "pass/abc",
        time := some "2025-11-10T14:05:00Z", data := none, source := none,
        specversion := none } =
      .ok { type := "", subject := "pass/abc",
            time := { year := 2025, month := 11, day := 10, hour := 14,
                      minute := 5, second := 0, offset_minutes := some 0 },
            data := [], id := some "evt-1", source := none,
            specversion := "1.0" } := by
  rfl

/-- C6 (amended): from_dict fails — with the ValueError raised by
fromisoformat, there being no MalformedEventError — exactly when the
time string (defaulting to "" when the member is missing, after the
Z replacement) is unparsable; a missing type or subject never causes
failure, each defaults to ""; a payload whose time is parsable parses
successfully with every other field defaulted as the code reads it. -/
theorem from_dict_fails_only_on_bad_time (p : RawPayload) :
    (p.time = none →
      CloudEvent.from_dict p =
        .error (.valueError ("Invalid isoformat string: " ++ ""))) ∧
    (∀ τ, p.time = some τ → fromisoformat (pyReplaceZ τ) = none →
      CloudEvent.from_dict p =
        .error (.valueError ("Invalid isoformat string: " ++ pyReplaceZ τ))) ∧
    (∀ τ t, p.time = some τ → fromisoformat (pyReplaceZ τ) = some t →
      CloudEvent.from_dict p =
        .ok { type := p.type.getD "", subject := p.subject.getD "",
              time := t, data := p.data.getD [], id := p.id,
              source := p.source,
              specversion := p.specversion.getD "1.0" }) := by
  refine ⟨?_, ?_, ?_⟩
  · intro h
    have hg : p.time.getD "" = "" := by rw [h]; rfl
    unfold CloudEvent.from_dict
    rw [hg]
    rfl
  · intro τ h hbad
    have hg : p.time.getD "" = τ := by rw [h]; rfl
    unfold CloudEvent.from_dict
    rw [hg, hbad]
  · intro τ t h hgood
    have hg : p.time.getD "" = τ := by rw [h]; rfl
    unfold CloudEvent.from_dict
    rw [hg, hgood]

/-- Witness for C6 (amended): a missing time member fails, garbage
time fails, and a payload missing subject but carrying a parsable
time succeeds. -/
theorem from_dict_fails_only_on_bad_time_witness :
    (CloudEvent.from_dict
      { id := none, type := some "PASS_UPDATED", subject := some "pass/abc",
        time := none, data := none, source := none, specversion := none }
      = .error (.valueError ("Invalid isoformat string: " ++ ""))) ∧
    (CloudEvent.from_dict
      { id := none, type := some "PASS_UPDATED", subject := some "pass/abc",
        time := some "not-a-date", data := none, source := none,
        specversion := none }
      = .error (.valueError
          ("Invalid isoformat string: " ++ pyReplaceZ "not-a-date"))) ∧
    (CloudEvent.from_dict
      { id := none, type := some "PASS_UPDATED", subject := none,
        time := some "2025-11-10", data := none, source := none,
        specversion := none }
      = .ok { type := "PASS_UPDATED", subject := "",
              time := { year := 2025, month := 11, day := 10, hour := 0,
                        minute := 0, second := 0, offset_minutes := none },
              data := [], id := none, source := none,
              specversion := "1.0" }) := by
  refine ⟨?_, ?_, ?_⟩
  · exact (from_dict_fails_only_on_bad_time
      { id := none, type := some "PASS_UPDATED", subject := some "pass/abc",
        time := none, data := none, source := none,
        specversion := none }).1 rfl
  · exact (from_dict_fails_only_on_bad_time
      { id := none, type := some "PASS_UPDATED", subject := some "pass/abc",
        time := some "not-a-date", data := none, source := none,
        specversion := none }).2.1 "not-a-date" rfl (by rfl)
  · exact (from_dict_fails_only_on_bad_time
      { id := none, type := some "PASS_UPDATED", subject := none,
        time := some "2025-11-10", data := none, source := none,
        specversion := none }).2.2 "2025-11-10"
      { year := 2025, month := 11, day := 10, hour := 0, minute := 0,
        second := 0, offset_minutes := none } rfl (by rfl)

/-- The way an f-string renders an optional value: the string itself,
or "None" for an absent key (dict.get default). -/
def pyStrOpt (s : Option String) : String :=
  match s with
  | some s => s
  | none => "None"

/-- CloudEvent._interpret_pass_updated (src/src/api/callbacks.py lines
195-211). -/
def CloudEvent.interpret_pass_updated (ev : CloudEvent) : String :=
  let status := (dictGet ev.data "status").getD "UNKNOWN"
  if status = "COMPLETED" then
    "Pass " ++ ev.subject ++ " provisioning COMPLETED successfully.\n" ++
    "User " ++ pyStrOpt (dictGet ev.data "userId") ++
    " now has an active credential.\n" ++
    "Action: Update internal database to mark user's badge as ACTIVE.\n" ++
    "         Send confirmation notification to user.\n" ++
    "         Update access control system if needed."
  else if status = "SUSPENDED" then
    "Pass " ++ ev.subject ++ " has been SUSPENDED.\n" ++
    "Action: Disable user's physical access in LenelS2.\n" ++
    "         Log the suspension event for audit."
  else
    "Pass " ++ ev.subject ++ " updated to status: " ++ status

/-- CloudEvent._interpret_pass_created. -/
def CloudEvent.interpret_pass_created (ev : CloudEvent) : String :=
  "New pass " ++ ev.subject ++ " created for user " ++
  pyStrOpt (dictGet ev.data "userId") ++ ".\n" ++
  "Action: Generate issuance token and send to user for provisioning."

/-- CloudEvent._interpret_user_created. -/
def CloudEvent.interpret_user_created (ev : CloudEvent) : String :=
  "User " ++ ev.subject ++ " created in HID Origo.\n" ++
  "Action: Proceed with pass creation for this user."

/-- CloudEvent._interpret_user_deleted. -/
def CloudEvent.interpret_user_deleted (ev : CloudEvent) : String :=
  "User " ++ ev.subject ++ " deleted from HID Origo.\n" ++
  "Action: Cleanup any local references.\n" ++
  "         Revoke access in physical access control system."

/-- CloudEvent._interpret_generic, the fallback handler. -/
def CloudEvent.interpret_generic (ev : CloudEvent) : String :=
  "Event " ++ ev.type ++ " received for " ++ ev.subject

/-- CloudEvent.interpret (src/src/api/callbacks.py lines 169-193):
dispatch on the type string through the interpretations dict, whose
`.get` default is the generic handler. -/
def CloudEvent.interpret (ev : CloudEvent) : String :=
  if ev.type = "PASS_UPDATED" then ev.interpret_pass_updated
  else if ev.type = "PASS_CREATED" then ev.interpret_pass_created
  else if ev.type = "USER_CREATED" then ev.interpret_user_created
  else if ev.type = "USER_DELETED" then ev.interpret_user_deleted
  else ev.interpret_generic

/-- C9: a PASS_UPDATED event whose data has status COMPLETED and a
userId interprets to the message directing that the user's badge be
marked ACTIVE and a confirmation notification be sent to the user;
any event whose type has no registered interpreter falls back to the
generic interpretation naming the event's type and subject. -/
theorem interpret_completed_and_generic_fallback (ev : CloudEvent)
    (uid : String) :
    (ev.type = "PASS_UPDATED" → dictGet ev.data "status" = some "COMPLETED" →
      dictGet ev.data "userId" = some uid →
      CloudEvent.interpret ev =
        "Pass " ++ ev.subject ++ " provisioning COMPLETED successfully.\n" ++
        "User " ++ uid ++ " now has an active credential.\n" ++
        "Action: Update internal database to mark user's badge as ACTIVE.\n" ++
        "         Send confirmation notification to user.\n" ++
        "         Update access control system if needed.") ∧
    (ev.type ≠ "PASS_UPDATED" → ev.type ≠ "PASS_CREATED" →
      ev.type ≠ "USER_CREATED" → ev.type ≠ "USER_DELETED" →
      CloudEvent.interpret ev =
        "Event " ++ ev.type ++ " received for " ++ ev.subject) := by
  constructor
  · intro hty hst huid
    unfold CloudEvent.interpret
    rw [if_pos hty]
    unfold CloudEvent.interpret_pass_updated
    simp only [hst, huid, Option.getD, pyStrOpt]
    rw [if_pos trivial]
  · intro h1 h2 h3 h4
    unfold CloudEvent.interpret
    rw [if_neg h1, if_neg h2, if_neg h3, if_neg h4]
    rfl

/-- Witness for C9 at the spec's example event and at an event of an
unregistered type. -/
theorem interpret_completed_and_generic_fallback_witness :
    CloudEvent.interpret
      { type := "PASS_UPDATED", subject := "pass/abc",
        time := { year := 2025, month := 11, day := 10, hour := 14,
                  minute := 5, second := 0, offset_minutes := some 0 },
        data := [("status", "COMPLETED"), ("userId", "u1")],
        id := some "evt-1", source := none, specversion := "1.0" } =
      "Pass " ++ "pass/abc" ++ " provisioning COMPLETED successfully.\n" ++
      "User " ++ "u1" ++ " now has an active credential.\n" ++
      "Action: Update internal database to mark user's badge as ACTIVE.\n" ++
      "         Send confirmation notification to user.\n" ++
      "         Update access control system if needed." ∧
    CloudEvent.interpret
      { type := "CREDENTIAL_SUSPENDED", subject := "pass/xyz",
        time := { year := 2025, month := 11, day := 10, hour := 14,
                  minute := 5, second := 0, offset_minutes := some 0 },
        data := [], id := none, source := none, specversion := "1.0" } =
      "Event " ++ "CREDENTIAL_SUSPENDED" ++ " received for " ++ "pass/xyz" := by
  constructor
  · exact (interpret_completed_and_generic_fallback
      { type := "PASS_UPDATED", subject := "pass/abc",
        time := { year := 2025, month := 11, day := 10, hour := 14,
                  minute := 5, second := 0, offset_minutes := some 0 },
        data := [("status", "COMPLETED"), ("userId", "u1")],
        id := some "evt-1", source := none, specversion := "1.0" }
      "u1").1 rfl (by rfl) (by rfl)
  · exact (interpret_completed_and_generic_fallback
      { type := "CREDENTIAL_SUSPENDED", subject := "pass/xyz",
        time := { year := 2025, month := 11, day := 10, hour := 14,
                  minute := 5, second := 0, offset_minutes := some 0 },
        data := [], id := none, source := none, specversion := "1.0" }
      "unused").2 (by decide) (by decide) (by decide) (by decide)
